import Mathlib

/-!
Verification development for the ai-landingpage-backend repository.

Shallow embedding of:
- src/utils/cache.js        (in-memory Map cache: getCache / setCache)
- src/index.js              (cache wrapper, /api/personalize route, generateLandingContent
                             attempt loop, testimonial repair pass, static fallback bundle)
- src/utils/schema.js       (LandingPageSchema, the faqs variant actually at the import path)
- utils/schemas.js          (the richer LandingPageSchema variant present in the repository,
                             the one whose exports match the imports of index.js)
- src/utils/variant-manager.js (VariantManager.getVariant)

JavaScript numbers in the variant manager are modelled as Rat (the arithmetic involved is
exact); testimonial ratings as Int; JS objects as association lists of (String, JSVal).
-/

/-- A JavaScript runtime value, as far as the cached/validated data needs. -/
inductive JSVal where
  | null
  | bool (b : Bool)
  | num (n : Int)
  | str (s : String)
  | arr (xs : List JSVal)
  | obj (fields : List (String × JSVal))

/-- JS truthiness: null, false, 0 and the empty string are falsy; arrays and
objects (even empty ones) are truthy. -/
def truthy : JSVal → Bool
  | JSVal.null => false
  | JSVal.bool b => b
  | JSVal.num n => !(n == 0)
  | JSVal.str s => !(s == "")
  | JSVal.arr _ => true
  | JSVal.obj _ => true

/-- A key of the JS Map in src/utils/cache.js.  String keys are the documented
contract; `client` stands for the ioredis client object that index.js's cache
wrapper passes as the first argument of getCache/setCache. -/
inductive MapKey where
  | str (s : String)
  | client
deriving DecidableEq

/-- The state of the module-level `memoryCache` Map of src/utils/cache.js. -/
def Store := List (MapKey × JSVal)

/-- Map.prototype.get: first binding wins (set below prepends, modelling overwrite). -/
def mapGet : Store → MapKey → Option JSVal
  | [], _ => none
  | (k1, v) :: rest, k => if k = k1 then some v else mapGet rest k

/-- src/utils/cache.js getCache(key): `memoryCache.get(key) || null`.
An absent key gives undefined, coalesced to null; a stored falsy value is
likewise coalesced to null.  Total: it never throws. -/
def getCache (store : Store) (key : MapKey) : JSVal :=
  match mapGet store key with
  | none => JSVal.null
  | some v => if truthy v then v else JSVal.null

/-- src/utils/cache.js setCache(key, value, ttlSeconds): `memoryCache.set(key, value)`
plus a deletion timer after ttlSeconds * 1000 ms.  The timer is a separate later
event, not part of the store update; reads before it fires see the entry.
The ttl slot is JSVal-typed because the caller in index.js passes a JS value there. -/
def setCache (store : Store) (key : MapKey) (value : JSVal) (ttlSeconds : JSVal) : Store :=
  (key, value) :: store

/-- index.js line 49, the cache wrapper: `get: (key) => getCache(redisClient, key)`.
The module getCache has a single key parameter, so it receives the client object
and the string key is the ignored extra argument. -/
def cacheGet (store : Store) (key : String) : JSVal :=
  getCache store MapKey.client

/-- index.js line 50: `set: (key, value, ttl) => setCache(redisClient, key, value, ttl)`.
Against setCache(key, value, ttlSeconds): the client fills the key slot, the string
key fills the value slot, the value fills the ttlSeconds slot, and ttl is dropped. -/
def cacheSet (store : Store) (key : String) (value : JSVal) (ttl : Nat) : Store :=
  setCache store MapKey.client (JSVal.str key) value

/-- Outcome of the /api/personalize route visible to the HTTP caller. -/
inductive PersonalizeResponse where
  | hit (payload : JSVal)
  | miss (payload : JSVal)
  | error500

/-- The /api/personalize handler (index.js lines 282-334), at the granularity of its
cache interaction and error propagation.  genResult is the outcome of the awaited
generateLandingContent call (an Except models a rejected promise); setThrows models
the claims scenario of a failing cache set (with cache.js as written the set never
rejects, so setThrows := false is the as-shipped behavior).  Both awaits sit inside
the route try, whose catch answers 500, before res.json is reached. -/
def personalizeRoute (store : Store) (keyword variant : String)
    (genResult : Except Unit JSVal) (setThrows : Bool) : PersonalizeResponse × Store :=
  let cacheKey := "personalize:" ++ keyword ++ ":" ++ variant
  let cached := cacheGet store cacheKey
  if truthy cached then (PersonalizeResponse.hit cached, store)
  else
    match genResult with
    | Except.error _ => (PersonalizeResponse.error500, store)
    | Except.ok content =>
      if setThrows then (PersonalizeResponse.error500, store)
      else (PersonalizeResponse.miss content, cacheSet store cacheKey content 21600)

/-- Key lookup in a JS object modelled as an association list. -/
def objGet (o : List (String × JSVal)) (k : String) : Option JSVal :=
  match o with
  | [] => none
  | (k1, v) :: rest => if k == k1 then some v else objGet rest k

/-- z.string().min(lo).max(hi) on field k (hi := none when no .max is declared). -/
def checkStr (o : List (String × JSVal)) (k : String) (lo : Nat) (hi : Option Nat) : Bool :=
  match objGet o k with
  | some (JSVal.str s) =>
    decide (lo ≤ s.length) && (match hi with | some h => decide (s.length ≤ h) | none => true)
  | _ => false

/-- Character-list comparison used by the URL check below. -/
def charsStartWith : List Char → List Char → Bool
  | [], _ => true
  | _ :: _, [] => false
  | a :: pre, b :: rest => (a == b) && charsStartWith pre rest

/-- Model of zod's z.string().url(): the check that matters for the URL constants in
this repository, all of which are plain http(s) URLs accepted by new URL(). -/
def isHttpUrl (s : String) : Bool :=
  charsStartWith "http://".data s.data || charsStartWith "https://".data s.data

/-- Required z.string().url() field. -/
def checkUrlReq (o : List (String × JSVal)) (k : String) : Bool :=
  match objGet o k with
  | some (JSVal.str s) => isHttpUrl s
  | _ => false

/-- Optional z.string().url() field: absent is fine, present must be a URL string. -/
def checkUrlOpt (o : List (String × JSVal)) (k : String) : Bool :=
  match objGet o k with
  | none => true
  | some (JSVal.str s) => isHttpUrl s
  | _ => false

/-- Optional z.string().max(hi) field. -/
def checkStrOptMax (o : List (String × JSVal)) (k : String) (hi : Nat) : Bool :=
  match objGet o k with
  | none => true
  | some (JSVal.str s) => decide (s.length ≤ hi)
  | _ => false

/-- The closed field set of the LandingPageSchema in src/utils/schema.js. -/
def schemaJsKeys : List String :=
  ["headline", "subheadline", "cta", "faqs", "whatsapp_message", "generated_image_url"]

/-- faqs: z.array(z.string().min(10)).min(3).max(6). -/
def checkFaqs (o : List (String × JSVal)) : Bool :=
  match objGet o "faqs" with
  | some (JSVal.arr xs) =>
    decide (3 ≤ xs.length) && decide (xs.length ≤ 6)
      && xs.all (fun x => match x with | JSVal.str s => decide (10 ≤ s.length) | _ => false)
  | _ => false

/-- LandingPageSchema of src/utils/schema.js (the file at the import path of index.js),
with the .strict() that index.js applies at the call sites: unknown keys are rejected,
and each declared field must be present and in range.  Validation is the conjunction
of all checks (zod collects issues; parse throws when any check fails). -/
def validateSchemaJs (o : List (String × JSVal)) : Bool :=
  o.all (fun kv => schemaJsKeys.contains kv.1)
    && checkStr o "headline" 10 (some 80)
    && checkStr o "subheadline" 10 (some 120)
    && checkStr o "cta" 5 (some 40)
    && checkFaqs o
    && checkStr o "whatsapp_message" 10 none
    && checkUrlReq o "generated_image_url"

/-- The closed field set of the LandingPageSchema variant labelled utils/schemas.js in
this repository (the variant whose exports match the imports of index.js). -/
def schemasJsKeys : List String :=
  ["headline", "subheadline", "cta", "whatsapp_message", "testimonials",
   "hero_image_url", "image_alt_text", "video_url", "video_caption",
   "meta_title", "meta_description"]

/-- One entry of the testimonials array: z.object with name (2..50), quote (20..300),
rating (z.number().min(1).max(5).int()), optional project_type.  The inner object is
not strict, so extra keys are stripped rather than rejected. -/
def checkTestimonialEntry (x : JSVal) : Bool :=
  match x with
  | JSVal.obj f =>
    checkStr f "name" 2 (some 50)
      && checkStr f "quote" 20 (some 300)
      && (match objGet f "rating" with
          | some (JSVal.num r) => decide (1 ≤ r) && decide (r ≤ 5)
          | _ => false)
      && (match objGet f "project_type" with
          | none => true
          | some (JSVal.str _) => true
          | some _ => false)
  | _ => false

/-- testimonials: z.array(entry).length(3). -/
def checkTestimonials (o : List (String × JSVal)) : Bool :=
  match objGet o "testimonials" with
  | some (JSVal.arr ts) => decide (ts.length = 3) && ts.all checkTestimonialEntry
  | _ => false

/-- The LandingPageSchema variant of utils/schemas.js (testimonials, meta fields),
which is already .strict in its declaration. -/
def validateSchemasJs (o : List (String × JSVal)) : Bool :=
  o.all (fun kv => schemasJsKeys.contains kv.1)
    && checkStr o "headline" 10 (some 80)
    && checkStr o "subheadline" 15 (some 120)
    && checkStr o "cta" 5 (some 35)
    && checkStr o "whatsapp_message" 10 (some 200)
    && checkTestimonials o
    && checkUrlReq o "hero_image_url"
    && checkStr o "image_alt_text" 5 (some 100)
    && checkUrlOpt o "video_url"
    && checkStrOptMax o "video_caption" 100
    && checkStr o "meta_title" 10 (some 60)
    && checkStr o "meta_description" 20 (some 160)

/-- The hardcoded static fallback bundle of generateLandingContent
(index.js lines 244-271), verbatim. -/
def fallbackRaw : List (String × JSVal) :=
  [("headline", JSVal.str "Elite Dubai Luxury Renovations"),
   ("subheadline", JSVal.str "Transforming spaces with unparalleled craftsmanship and design"),
   ("cta", JSVal.str "Book Consultation"),
   ("whatsapp_message", JSVal.str "Hello, I\x27m interested in your luxury renovation services"),
   ("testimonials", JSVal.arr
     [JSVal.obj [("name", JSVal.str "Sheikh Ahmed"),
                 ("quote", JSVal.str "The renovation transformed our palace beyond expectations. Every detail was perfect."),
                 ("rating", JSVal.num 5)],
      JSVal.obj [("name", JSVal.str "Mr. Johnson"),
                 ("quote", JSVal.str "Working with this team was a pleasure from start to finish. The quality is unmatched."),
                 ("rating", JSVal.num 5)],
      JSVal.obj [("name", JSVal.str "Mrs. Al-Farsi"),
                 ("quote", JSVal.str "They delivered our dream home on time and on budget. Highly recommended for luxury projects."),
                 ("rating", JSVal.num 5)]]),
   ("hero_image_url", JSVal.str "https://images.unsplash.com/photo-1582268494924-a7408f607106?auto=format&fit=crop&w=800&q=80"),
   ("image_alt_text", JSVal.str "Luxury Dubai villa interior"),
   ("meta_title", JSVal.str "Luxury Renovations Dubai | Premium Home Transformations"),
   ("meta_description", JSVal.str "Experience world-class luxury renovations in Dubai with our premium service. Exceptional quality and attention to detail for discerning clients."),
   ("video_url", JSVal.str "https://example.com/fallback-video.mp4")]

/-- A testimonial as the repair pass emits it. -/
structure TestimonialOut where
  name : String
  quote : String
  rating : Int
deriving DecidableEq

/-- A raw testimonial candidate from the provider, before repair.  none models a
missing (or falsy) name, a missing quote, and a non-number rating respectively. -/
structure RawTestimonial where
  name : Option String
  quote : Option String
  rating : Option Int

/-- The canned quote substituted for a missing or sub-20-character quote
(index.js line 125). -/
def shortQuoteFiller : String :=
  "This service exceeded all our expectations with their attention to detail and quality craftsmanship."

/-- The canned quote of the entries pushed while padding the list to 3
(index.js line 135). -/
def paddingQuoteFiller : String :=
  "The quality and professionalism was outstanding from start to finish. Highly recommended!"

/-- The per-entry repair of index.js lines 121-129.  rnd is the Math.random draw
used only when the name is missing: Client A..Z. -/
def repairOne (rnd : Nat) (t : RawTestimonial) : TestimonialOut :=
  { name := t.name.getD ("Client " ++ String.mk [Char.ofNat (65 + rnd % 26)])
  , quote :=
      match t.quote with
      | some q => if 20 ≤ q.length then q else shortQuoteFiller
      | none => shortQuoteFiller
  , rating :=
      match t.rating with
      | some r => min (max r 1) 5
      | none => 5 }

/-- The entry pushed when fewer than 3 testimonials remain, named after the
current length (index.js lines 133-137). -/
def fillerTestimonial (n : Nat) : TestimonialOut :=
  { name := "Client " ++ String.mk [Char.ofNat (65 + n)]
  , quote := paddingQuoteFiller
  , rating := 5 }

/-- The while loop of index.js lines 132-138: push filler entries until the list has
3 elements.  Three iterations of fuel cover every reachable input (the loop body
runs at most three times from an empty list, and not at all from length 3 or more). -/
def padTestimonials : Nat → List TestimonialOut → List TestimonialOut
  | 0, l => l
  | fuel + 1, l =>
    if l.length < 3 then padTestimonials fuel (l ++ [fillerTestimonial l.length]) else l

/-- The full repair pass of index.js lines 121-138: slice(0, 3), per-entry repair,
then pad to 3. -/
def repairTestimonials (rnd : Nat) (ts : List RawTestimonial) : List TestimonialOut :=
  padTestimonials 3 ((ts.take 3).map (repairOne rnd))

/-- One iteration of the attempt while loop of generateLandingContent
(index.js lines 86-240).  attempt a is the outcome of the loop body at 0-based
counter value a: some bundle when the try block reaches its return, none when it
throws (provider failure, JSON parse failure, or validation failure).  Returns
(result, number of attempts executed, list of backoff delays in ms).  The fuel
argument only mirrors the loop guard: with fuel 3 and counter 0 it is exactly
`while (attempts < MAX_ATTEMPTS)`, and attempts increments only on failure, so the
delay after the a-th failure (1-based) is 1000 * a, skipped when no attempt remains. -/
def attemptLoop (attempt : Nat → Option α) : Nat → Nat → Option α × Nat × List Nat
  | _, 0 => (none, 0, [])
  | attempts, fuel + 1 =>
    if attempts < 3 then
      match attempt attempts with
      | some b => (some b, 1, [])
      | none =>
        let a := attempts + 1
        let r := attemptLoop attempt a fuel
        (r.1, r.2.1 + 1, (if a < 3 then [1000 * a] else []) ++ r.2.2)
    else (none, 0, [])

/-- The attempt loop entered with attempts = 0, MAX_ATTEMPTS = 3. -/
def generateRun (attempt : Nat → Option α) : Option α × Nat × List Nat :=
  attemptLoop attempt 0 3

/-- The nine string fields gptParsed is normalized to at index.js lines 209-219
(every field defaulted to a string there). -/
structure GptFields where
  headline : String
  subheadline : String
  cta : String
  whatsapp_message : String
  hero_image_url : String
  image_alt_text : String
  meta_title : String
  meta_description : String
  video_url : String

/-- What one attempt of generateLandingContent has in hand when it reaches the
validation call: the normalized gpt fields, the image and video URLs after their
|| fallbacks, and the testimonials value. -/
structure AttemptInputs where
  gpt : GptFields
  imageUrl : String
  videoUrl : String
  testimonials : JSVal

/-- rawContent as assembled at index.js lines 224-229: the spread of gptParsed with
hero_image_url and video_url overwritten and testimonials attached.  Its key set is
exactly these ten keys, whatever the providers returned. -/
def assembleRaw (inp : AttemptInputs) : List (String × JSVal) :=
  [("headline", JSVal.str inp.gpt.headline),
   ("subheadline", JSVal.str inp.gpt.subheadline),
   ("cta", JSVal.str inp.gpt.cta),
   ("whatsapp_message", JSVal.str inp.gpt.whatsapp_message),
   ("hero_image_url", JSVal.str inp.imageUrl),
   ("image_alt_text", JSVal.str inp.gpt.image_alt_text),
   ("meta_title", JSVal.str inp.gpt.meta_title),
   ("meta_description", JSVal.str inp.gpt.meta_description),
   ("video_url", JSVal.str inp.videoUrl),
   ("testimonials", inp.testimonials)]

/-- One attempt body of generateLandingContent against the schema actually imported
(src/utils/schema.js): none when a provider or parse threw before assembly, otherwise
the assembled rawContent if LandingPageSchema.strict().parse accepts it. -/
def attemptOnce : Option AttemptInputs → Option (List (String × JSVal))
  | none => none
  | some inp =>
    let raw := assembleRaw inp
    if validateSchemaJs raw then some raw else none

/-- generateLandingContent (index.js lines 80-272) over the schema at the import path:
run up to 3 attempts, then parse the hardcoded fallback; Except.error models the
ZodError a failed parse throws out of the function. -/
def generateLandingContent (providerRuns : Nat → Option AttemptInputs) :
    Except Unit (List (String × JSVal)) :=
  match (generateRun (fun a => attemptOnce (providerRuns a))).1 with
  | some b => Except.ok b
  | none =>
    if validateSchemaJs fallbackRaw then Except.ok fallbackRaw else Except.error ()

/-- VariantManager.getVariant walk (src/utils/variant-manager.js lines 24-32):
accumulate weights in table order and return the first name whose cumulative weight
reaches randomNumber; fall through to the default name control. -/
def getVariantGo (randomNumber : Rat) : List (String × Rat) → Rat → String
  | [], _ => "control"
  | (name, w) :: rest, cum =>
    let c := cum + w
    if randomNumber ≤ c then name else getVariantGo randomNumber rest c

/-- VariantManager.getVariant (src/utils/variant-manager.js lines 15-33).  hash
abstracts parseInt(md5(userId).substring(0, 8), 16), a pure function of the
identifier with values in [0, 2^32); the weight table is the this.variants state.
JS float arithmetic is modelled exactly in Rat (the operations involved are
division, multiplication and comparison of small rationals). -/
def getVariant (hash : String → Nat) (variants : List (String × Rat)) (userId : String) :
    String :=
  let hashValue : Nat := hash userId
  let totalWeight : Rat := (variants.map Prod.snd).sum
  let randomNumber : Rat := ((hashValue : Rat) / 4294967295) * totalWeight
  getVariantGo randomNumber variants 0

/-- A concrete validated bundle standing for a freshly generated content object in the
personalize scenarios (any non-empty object works: objects are truthy). -/
def bundle0 : JSVal :=
  JSVal.obj [("headline", JSVal.str "Premium Spa Services in Dubai")]

/-- First personalize request for (spa, control) against an empty store, with a
successful generation. -/
def personalizeFirst : PersonalizeResponse × Store :=
  personalizeRoute [] "spa" "control" (Except.ok bundle0) false

/-- Immediate second personalize request for the same (spa, control) pair against the
store the first request left behind. -/
def personalizeSecond : PersonalizeResponse × Store :=
  personalizeRoute personalizeFirst.2 "spa" "control" (Except.ok bundle0) false

/-- The fallback constant fails the parse against the schema at the import path:
its key set (testimonials, hero_image_url, meta fields) is disjoint from faqs and
generated_image_url, and .strict() rejects the unknown keys. -/
lemma fallback_fails_validateSchemaJs : validateSchemaJs fallbackRaw = false := rfl

set_option maxRecDepth 20000 in
/-- The fallback constant passes the richer LandingPageSchema variant of the
repository, the one whose field list it was written for. -/
lemma fallback_passes_validateSchemasJs : validateSchemasJs fallbackRaw = true := by decide

/-- Whatever the providers return, the assembled rawContent fails the schema at
the import path: hero_image_url is already outside its closed field set and faqs
is absent, so .strict().parse throws on every attempt. -/
lemma assembleRaw_fails_validateSchemaJs (inp : AttemptInputs) :
    validateSchemaJs (assembleRaw inp) = false := rfl

/-- Hence every attempt body of generateLandingContent fails. -/
lemma attemptOnce_eq_none (o : Option AttemptInputs) : attemptOnce o = none := by
  cases o with
  | none => rfl
  | some inp => simp [attemptOnce, assembleRaw_fails_validateSchemaJs]

/-- The attempt loop on three failing attempts: exhaustion after 3 attempts with
backoff waits of 1000 ms and 2000 ms. -/
lemma generateRun_of_allNone {α : Type} (attempt : Nat → Option α)
    (h : ∀ a, attempt a = none) : generateRun attempt = (none, 3, [1000, 2000]) := by
  simp [generateRun, attemptLoop, h 0, h 1, h 2]

/-- The padding loop brings any list of at most 3 entries to exactly 3. -/
lemma padTestimonials_length (l : List TestimonialOut) (h : l.length ≤ 3) :
    (padTestimonials 3 l).length = 3 := by
  rcases l with _ | ⟨a, l⟩
  · rfl
  rcases l with _ | ⟨b, l⟩
  · rfl
  rcases l with _ | ⟨c, l⟩
  · rfl
  rcases l with _ | ⟨d, l⟩
  · rfl
  · simp at h

/-- Claim C3 (code bug record): the hardcoded fallback bundle of index.js lines
244-271 does not parse against the LandingPageSchema of src/utils/schema.js (the
file at the import path), while it does parse against the richer LandingPageSchema
variant present in the repository whose exports match the imports of index.js. -/
theorem fallback_bundle_validation :
    validateSchemaJs fallbackRaw = false ∧ validateSchemasJs fallbackRaw = true :=
  ⟨fallback_fails_validateSchemaJs, fallback_passes_validateSchemasJs⟩

/-- Claim C4: for every store state, every key, every bundle (a JS object value) and
every ttl, writing with setCache and reading the same key back with getCache before
the deletion timer fires returns the bundle unchanged: objects are truthy, so the
null-coalescing in getCache does not interfere. -/
theorem cache_roundtrip :
    ∀ (store : Store) (k : MapKey) (fields : List (String × JSVal)) (ttl : JSVal),
      getCache (setCache store k (JSVal.obj fields) ttl) k = JSVal.obj fields := by
  intro store k fields ttl
  simp [getCache, setCache, mapGet, truthy]

/-- Claim C10: getCache answers null (never undefined, never a throw: it is a total
function) for an absent key, and null again for any stored falsy value, so a falsy
cached value is indistinguishable from a miss at the getCache interface. -/
theorem getCache_absent_or_falsy_null :
    (∀ (store : Store) (k : MapKey), mapGet store k = none → getCache store k = JSVal.null)
    ∧ (∀ (store : Store) (k : MapKey) (v : JSVal),
        mapGet store k = some v → truthy v = false → getCache store k = JSVal.null) := by
  constructor
  · intro store k h
    simp [getCache, h]
  · intro store k v h hf
    simp [getCache, h, hf]

/-- Witness for C10: a miss on an empty store and a stored empty string both read
back as null. -/
theorem getCache_absent_or_falsy_null_witness :
    getCache [] (MapKey.str "personalize:spa:control") = JSVal.null
    ∧ getCache [(MapKey.str "k", JSVal.str "")] (MapKey.str "k") = JSVal.null :=
  ⟨getCache_absent_or_falsy_null.1 [] (MapKey.str "personalize:spa:control") rfl,
   getCache_absent_or_falsy_null.2 [(MapKey.str "k", JSVal.str "")] (MapKey.str "k")
     (JSVal.str "") rfl rfl⟩

/-- Claim C7: on a single candidate whose quote has 9 characters and whose rating is
9, the repair pass emits exactly 3 entries, the short quote replaced by the canned
filler and the rating clamped to 5; and on every input of every length the repaired
list has exactly 3 entries (padding when fewer, slice(0, 3) when more). -/
theorem repair_pass_spec :
    (∀ rnd : Nat,
      repairTestimonials rnd
          [{ name := some "Alice", quote := some "Great job", rating := some 9 }] =
        [{ name := "Alice", quote := shortQuoteFiller, rating := 5 },
         { name := "Client B", quote := paddingQuoteFiller, rating := 5 },
         { name := "Client C", quote := paddingQuoteFiller, rating := 5 }])
    ∧ (∀ (rnd : Nat) (ts : List RawTestimonial), (repairTestimonials rnd ts).length = 3) := by
  constructor
  · intro rnd
    rfl
  · intro rnd ts
    apply padTestimonials_length
    simp [List.length_take]

/-- Claim C2 (code bug record): with the arity mismatch between the wrapper of
index.js (getCache(redisClient, key) / setCache(redisClient, key, value, ttl)) and
the one-key getCache/setCache of src/utils/cache.js, the first (spa, control)
request stores nothing under the key personalize:spa:control (the client object is
the only map key and the stored value is the key string), and the immediate second
request, although tagged hit, answers the key string instead of the bundle. -/
theorem personalize_cache_key_bug :
    personalizeFirst.1 = PersonalizeResponse.miss bundle0
    ∧ mapGet personalizeFirst.2 (MapKey.str "personalize:spa:control") = none
    ∧ personalizeSecond.1 = PersonalizeResponse.hit (JSVal.str "personalize:spa:control")
    ∧ personalizeSecond.1 ≠ PersonalizeResponse.hit bundle0 := by
  refine ⟨rfl, rfl, rfl, ?_⟩
  intro h
  have h2 : PersonalizeResponse.hit (JSVal.str "personalize:spa:control") =
      PersonalizeResponse.hit bundle0 := h
  have h3 : JSVal.str "personalize:spa:control" = bundle0 := by injection h2
  exact JSVal.noConfusion h3

/-- Counterexample for C5: on a miss with a successful generation whose cache set
rejects, the route answers the 500 error branch, not the freshly generated
bundle. -/
theorem personalize_set_failure_counterexample :
    (personalizeRoute [] "spa" "control" (Except.ok bundle0) true).1 =
      PersonalizeResponse.error500
    ∧ PersonalizeResponse.error500 ≠ PersonalizeResponse.miss bundle0 :=
  ⟨rfl, fun h => PersonalizeResponse.noConfusion h⟩

/-- Claim C5 as amended: the awaited cache.set sits inside the route try before
res.json, so when it rejects after an otherwise successful generation the caller
receives the 500 error response instead of the freshly generated bundle, for every
keyword, variant and generated content. -/
theorem personalize_set_failure_returns_500 :
    ∀ (keyword variant : String) (content : JSVal),
      (personalizeRoute [] keyword variant (Except.ok content) true).1 =
        PersonalizeResponse.error500 := by
  intro keyword variant content
  rfl

/-- Claim C6: the attempt loop of generateLandingContent runs at most 3 sequential
attempts (the model is a sequential recursion, one attempt after the other), stops
at the first successful attempt or at exhaustion, and between a failed attempt with
index a (1-based) and the next one waits 1000 * a ms, the base delay times the
attempt index: delays [] on first-attempt success, [1000] on success at attempt 2,
[1000, 2000] on success at attempt 3 and on exhaustion. -/
theorem generate_attempt_loop_spec :
    ∀ {α : Type} (attempt : Nat → Option α),
      ((generateRun attempt).2.1 ≤ 3)
      ∧ (∀ b, attempt 0 = some b → generateRun attempt = (some b, 1, []))
      ∧ (∀ b, attempt 0 = none → attempt 1 = some b →
          generateRun attempt = (some b, 2, [1000]))
      ∧ (∀ b, attempt 0 = none → attempt 1 = none → attempt 2 = some b →
          generateRun attempt = (some b, 3, [1000, 2000]))
      ∧ (attempt 0 = none → attempt 1 = none → attempt 2 = none →
          generateRun attempt = (none, 3, [1000, 2000])) := by
  intro α attempt
  refine ⟨?_, ?_, ?_, ?_, ?_⟩
  · rcases h0 : attempt 0 with _ | b0 <;> rcases h1 : attempt 1 with _ | b1 <;>
      rcases h2 : attempt 2 with _ | b2 <;>
      simp [generateRun, attemptLoop, h0, h1, h2]
  · intro b hb
    simp [generateRun, attemptLoop, hb]
  · intro b h0 h1
    simp [generateRun, attemptLoop, h0, h1]
  · intro b h0 h1 h2
    simp [generateRun, attemptLoop, h0, h1, h2]
  · intro h0 h1 h2
    simp [generateRun, attemptLoop, h0, h1, h2]

/-- Witness for C6: an attempt function failing once then succeeding gives the bundle
after 2 attempts with one 1000 ms wait. -/
theorem generate_attempt_loop_spec_witness :
    generateRun (fun a => if a == 1 then some 7 else none) = (some 7, 2, [1000]) :=
  (generate_attempt_loop_spec (fun a => if a == 1 then some (7 : Nat) else none)).2.2.1
    7 rfl rfl

/-- Claim C1 (code bug record): with the LandingPageSchema at the import path
(src/utils/schema.js), every attempt's validation fails whatever every provider
returns, and the final fallback parse then throws, so generateLandingContent
raises a ZodError past its own boundary on every invocation instead of returning
a validated bundle. -/
theorem generateLandingContent_always_raises :
    ∀ (providerRuns : Nat → Option AttemptInputs),
      generateLandingContent providerRuns = Except.error () := by
  intro providerRuns
  have hall : ∀ a, attemptOnce (providerRuns a) = none :=
    fun a => attemptOnce_eq_none (providerRuns a)
  have hrun : generateRun (fun a => attemptOnce (providerRuns a)) = (none, 3, [1000, 2000]) :=
    generateRun_of_allNone _ hall
  simp [generateLandingContent, hrun, fallback_fails_validateSchemaJs]

/-- The cumulative-weight walk always answers a name of the table whenever the
target value is at most the total remaining weight: the final cumulative weight
equals the running total, so the last comparison succeeds if no earlier one did. -/
lemma getVariantGo_mem (l : List (String × Rat)) :
    ∀ (r cum : Rat), l ≠ [] → r ≤ cum + (l.map Prod.snd).sum →
      getVariantGo r l cum ∈ l.map Prod.fst := by
  induction l with
  | nil => intro r cum hne _; exact absurd rfl hne
  | cons p t ih =>
    intro r cum _ hle
    obtain ⟨name, w⟩ := p
    by_cases hc : r ≤ cum + w
    · simp [getVariantGo, hc]
    · have ht : t ≠ [] := by
        intro he
        subst he
        simp at hle
        exact hc (by linarith)
      have hle2 : r ≤ (cum + w) + (t.map Prod.snd).sum := by
        simp at hle
        linarith
      simp only [getVariantGo, hc, if_false, List.map_cons]
      exact List.mem_cons_of_mem _ (ih r (cum + w) ht hle2)

/-- Claim C8: for every hash function into the 32-bit range, every weight table
summing to 1 and every identifier, getVariant answers a variant name of the table
(in particular it is total and never falls off to an exception), and it is
deterministic: the embedded function is pure (the md5 digest is a function of the
identifier), so a repeated call with the same identifier and table is the same
call and yields the same name. -/
theorem getVariant_total_deterministic :
    ∀ (hash : String → Nat) (variants : List (String × Rat)) (userId : String),
      (variants.map Prod.snd).sum = 1 →
      hash userId ≤ 4294967295 →
      getVariant hash variants userId ∈ variants.map Prod.fst
      ∧ getVariant hash variants userId = getVariant hash variants userId := by
  intro hash variants userId hsum hrange
  refine ⟨?_, rfl⟩
  have hne : variants ≠ [] := by
    intro he
    rw [he] at hsum
    simp at hsum
  have hr : ((hash userId : Rat) / 4294967295) * (variants.map Prod.snd).sum
      ≤ 0 + (variants.map Prod.snd).sum := by
    rw [hsum, zero_add, mul_one]
    rw [div_le_one (by norm_num)]
    exact_mod_cast hrange
  exact getVariantGo_mem variants _ 0 hne hr

/-- Witness for C8: the configured table control 0.5 / variant-1 0.5 with a
concrete hash. -/
theorem getVariant_total_deterministic_witness :
    getVariant (fun _ => 0) [("control", (1 : Rat)/2), ("variant-1", (1 : Rat)/2)] "1.2.3.4"
      ∈ List.map Prod.fst [("control", (1 : Rat)/2), ("variant-1", (1 : Rat)/2)]
    ∧ getVariant (fun _ => 0) [("control", (1 : Rat)/2), ("variant-1", (1 : Rat)/2)] "1.2.3.4"
      = getVariant (fun _ => 0) [("control", (1 : Rat)/2), ("variant-1", (1 : Rat)/2)] "1.2.3.4" :=
  getVariant_total_deterministic (fun _ => 0)
    [("control", (1 : Rat)/2), ("variant-1", (1 : Rat)/2)] "1.2.3.4"
    (by norm_num) (by norm_num)

/-- Counterexample for C9: on the zero-weight table [variant-1 0, control 0] the
normalized number is 0 and the first cumulative weight is 0, so 0 <= 0 matches the
first entry and getVariant answers variant-1, not the configured default control. -/
theorem getVariant_zero_weight_counterexample :
    getVariant (fun _ => 12345) [("variant-1", (0 : Rat)), ("control", 0)] "203.0.113.7"
      = "variant-1"
    ∧ "variant-1" ≠ "control" := by
  constructor
  · simp [getVariant, getVariantGo]
  · decide

/-- Claim C9 as amended: on every nonempty weight table whose head weight is 0 and
whose remaining weights sum to 0 (in particular every all-zero table), getVariant
returns the first variant name of the table, not the configured default; the
default control is returned for the empty table.  It never raises: getVariant is a
total function. -/
theorem getVariant_zero_weight_first :
    (∀ (hash : String → Nat) (userId name : String) (rest : List (String × Rat)),
      (rest.map Prod.snd).sum = 0 →
      getVariant hash ((name, 0) :: rest) userId = name)
    ∧ (∀ (hash : String → Nat) (userId : String),
        getVariant hash [] userId = "control") := by
  constructor
  · intro hash userId name rest hrest
    simp [getVariant, getVariantGo, hrest]
  · intro hash userId
    rfl

/-- Witness for C9 as amended: a concrete two-entry all-zero table answers its first
name, and the empty table answers control. -/
theorem getVariant_zero_weight_first_witness :
    getVariant (fun _ => 7) [("a", 0), ("b", (0 : Rat))] "x" = "a"
    ∧ getVariant (fun _ => 7) [] "x" = "control" :=
  ⟨getVariant_zero_weight_first.1 (fun _ => 7) "x" "a" [("b", (0 : Rat))] (by norm_num),
   getVariant_zero_weight_first.2 (fun _ => 7) "x"⟩
